import Mathlib

/-!
Verification of the connection-handling and security pipeline of the
Unix-socket command bridge (`server/socket-server.py`), as a shallow
embedding in Lean.  Time is modelled as `Nat` seconds, JSON scalar values
as `JValue`, and the mutable per-client maps of the rate limiters as
functions `String → List Nat` / `String → Option Nat` (the Python
`defaultdict`s, whose missing entries read as `[]` / absent).
-/

/-- A JSON scalar value as it appears in a request (`json.loads` output
restricted to scalars; request parameters are declared string / number /
boolean, with `jNum` covering Python ints). -/
inductive JValue where
  | jNull
  | jBool (b : Bool)
  | jNum (n : Int)
  | jStr (s : String)
deriving DecidableEq

/-- Python truthiness (`if x:`) of a JSON scalar. -/
def pyTruthy : JValue → Bool
  | .jNull => false
  | .jBool b => b
  | .jNum n => n != 0
  | .jStr s => s != ""

/-- Python `==` on JSON scalars.  `True == 1` and `False == 0` hold in
Python because `bool` is a subclass of `int`; `None` equals only itself. -/
def pyEq : JValue → JValue → Bool
  | .jNull, .jNull => true
  | .jBool a, .jBool b => a == b
  | .jBool a, .jNum n => (if a then (1 : Int) else 0) == n
  | .jNum n, .jBool b => n == (if b then (1 : Int) else 0)
  | .jNum a, .jNum b => a == b
  | .jStr a, .jStr b => a == b
  | _, _ => false

/-- Python `str()` of a JSON scalar, as used when stringifying argv
parameters (`str(param_value)`). -/
def pyStr : JValue → String
  | .jNull => "None"
  | .jBool true => "True"
  | .jBool false => "False"
  | .jNum n => toString n
  | .jStr s => s

/-- Whether a `JValue` is a Python `str`. -/
def JValue.isString : JValue → Bool
  | .jStr _ => true
  | _ => false

/-- Whether a `JValue` satisfies Python `isinstance(v, (int, float))`.
`jBool` counts: Python `bool` is a subclass of `int`. -/
def JValue.isNumberPy : JValue → Bool
  | .jNum _ => true
  | .jBool _ => true
  | _ => false

/-- Whether a `JValue` satisfies Python `isinstance(v, bool)`. -/
def JValue.isBoolean : JValue → Bool
  | .jBool _ => true
  | _ => false

/-- Whether a `JValue` is JSON `null` (Python `None`). -/
def JValue.isNull : JValue → Bool
  | .jNull => true
  | _ => false

/-- The quote character Python `repr` picks for a string: single quotes,
except double quotes when the string holds a single quote but no double
quote. -/
def pyQuoteChar (s : String) : Char :=
  if s.contains '\'' && !(s.contains '"') then '"' else '\''

/-- One character of a Python string `repr` body: backslash, the active
quote and the common control characters are escaped, other (printable)
characters stand for themselves. -/
def pyEscChar (q : Char) (c : Char) : String :=
  if c == '\\' then "\\\\"
  else if c == q then "\\" ++ String.singleton q
  else if c == '\n' then "\\n"
  else if c == '\r' then "\\r"
  else if c == '\t' then "\\t"
  else String.singleton c

/-- Python `repr` of a string (printable characters; further `\xNN`
escaping of non-printables is outside the model). -/
def pyStrRepr (s : String) : String :=
  let q := pyQuoteChar s
  String.singleton q ++ String.join (s.toList.map (pyEscChar q)) ++ String.singleton q

/-- Python `str()` of a list of strings, as interpolated into the
"Unknown command" message: `['a', 'b']`. -/
def pyListRepr (xs : List String) : String :=
  "[" ++ String.intercalate ", " (xs.map pyStrRepr) ++ "]"

/-- Python `str.strip()` whitespace (the ASCII whitespace characters). -/
def pyIsSpace (c : Char) : Bool :=
  c == ' ' || c == '\t' || c == '\n' || c == '\r' || c == '\x0b' || c == '\x0c'

/-- Python `str.strip()`: drop whitespace from both ends. -/
def py_strip (l : List Char) : List Char :=
  ((l.dropWhile pyIsSpace).reverse.dropWhile pyIsSpace).reverse

/-- A regular expression, the abstract syntax of a compiled `re` pattern
(empty language, empty string, one character, alternation, concatenation,
Kleene star). -/
inductive Regex where
  | emp
  | eps
  | chr (c : Char)
  | alt (r1 r2 : Regex)
  | cat (r1 r2 : Regex)
  | star (r : Regex)
deriving DecidableEq

/-- Whether a regex accepts the empty string. -/
def nullable : Regex → Bool
  | .emp => false
  | .eps => true
  | .chr _ => false
  | .alt r1 r2 => nullable r1 || nullable r2
  | .cat r1 r2 => nullable r1 && nullable r2
  | .star _ => true

/-- Brzozowski derivative of a regex by a character. -/
def rderiv : Regex → Char → Regex
  | .emp, _ => .emp
  | .eps, _ => .emp
  | .chr c, a => if a == c then .eps else .emp
  | .alt r1 r2, a => .alt (rderiv r1 a) (rderiv r2 a)
  | .cat r1 r2, a =>
    if nullable r1 then .alt (.cat (rderiv r1 a) r2) (rderiv r2 a)
    else .cat (rderiv r1 a) r2
  | .star r, a => .cat (rderiv r a) (.star r)

/-- Whole-string regex matching (the semantics of Python
`re.fullmatch`): the regex must match the entire input. -/
def rmatch : Regex → List Char → Bool
  | r, [] => nullable r
  | r, c :: cs => rmatch (rderiv r c) cs

/-- Python `re.match` semantics: the match is anchored at the start of
the input but may end anywhere, i.e. the regex must match some prefix of
the input.  This is what `re.match(pattern, value)` in
`validate_parameter_value` tests. -/
def startMatch : Regex → List Char → Bool
  | r, [] => nullable r
  | r, c :: cs => nullable r || startMatch (rderiv r c) cs

/-- The validation contract of one declared parameter
(`ParameterSpec`), with the source's defaults for absent keys
(`type` defaults to string, `required` to false, `style` to flag). -/
structure ParameterSpec where
  type : String := "string"
  required : Bool := false
  style : String := "flag"
  pattern : Option Regex := none
  enum : Option (List JValue) := none
  max_length : Option Nat := none
deriving DecidableEq

namespace Server

/-- `ConfigurableSocketServer.validate_parameter_value`: type check with
no coercion (except Python's `bool <: int`), then `re.match` against
`pattern` for strings, `enum` membership, and `max_length` for strings,
in the source's order of early returns. -/
def validate_parameter_value (value : JValue) (cfg : ParameterSpec) : Bool :=
  if cfg.type == "string" && !value.isString then false
  else if cfg.type == "number" && !value.isNumberPy then false
  else if cfg.type == "boolean" && !value.isBoolean then false
  else if cfg.type == "string" &&
      (match cfg.pattern, value with
        | some p, .jStr s => !(startMatch p s.toList)
        | _, _ => false) then false
  else if (match cfg.enum with
        | some es => !(es.any (fun e => pyEq value e))
        | none => false) then false
  else if cfg.type == "string" &&
      (match cfg.max_length, value with
        | some m, .jStr s => decide (s.length > m)
        | _, _ => false) then false
  else true

end Server

/-- The state of the auth brute-force lockout limiter (`AuthRateLimiter`):
its three tuning knobs and the two per-client maps, `failed_attempts`
(`client_id -> [timestamps]`) and `blocked_clients`
(`client_id -> block_until_timestamp`). -/
@[ext] structure AuthRateLimiter where
  max_attempts : Nat
  window_seconds : Nat
  block_duration : Nat
  failed_attempts : String → List Nat
  blocked_clients : String → Option Nat

namespace AuthRateLimiter

/-- `AuthRateLimiter.cleanup_old_entries`: drop failure timestamps older
than the window (`now - t < window_seconds` kept) for every client, and
drop blocks whose expiry has passed (`now >= block_until`). -/
def cleanup_old_entries (now : Nat) (s : AuthRateLimiter) : AuthRateLimiter :=
  { s with
    failed_attempts := fun c =>
      (s.failed_attempts c).filter (fun t => now - t < s.window_seconds),
    blocked_clients := fun c =>
      match s.blocked_clients c with
      | some u => if now ≥ u then none else some u
      | none => none }

/-- `AuthRateLimiter.check_rate_limit`: a still-active block denies at
once without touching any state; an expired block is removed together
with the client's failure list; then old entries are cleaned up and the
client is allowed iff its failure count is below `max_attempts`. -/
def check_rate_limit (client : String) (now : Nat) (s : AuthRateLimiter) :
    Bool × AuthRateLimiter :=
  match s.blocked_clients client with
  | some u =>
    if now < u then (false, s)
    else
      let s1 := { s with
        blocked_clients := Function.update s.blocked_clients client none,
        failed_attempts := Function.update s.failed_attempts client [] }
      let s2 := cleanup_old_entries now s1
      (decide ((s2.failed_attempts client).length < s2.max_attempts), s2)
  | none =>
    let s2 := cleanup_old_entries now s
    (decide ((s2.failed_attempts client).length < s2.max_attempts), s2)

/-- `AuthRateLimiter.record_failure`: append the timestamp to the
client's failure list; when the count reaches `max_attempts` the client
is blocked until `now + block_duration`. -/
def record_failure (client : String) (now : Nat) (s : AuthRateLimiter) :
    AuthRateLimiter :=
  let fa := s.failed_attempts client ++ [now]
  let s1 := { s with failed_attempts := Function.update s.failed_attempts client fa }
  if fa.length ≥ s.max_attempts then
    { s1 with
      blocked_clients := Function.update s1.blocked_clients client
        (some (now + s.block_duration)) }
  else s1

/-- `AuthRateLimiter.record_success`: clear the client's failure list.
Deliberately leaves `blocked_clients` alone (blocks expire naturally). -/
def record_success (client : String) (s : AuthRateLimiter) : AuthRateLimiter :=
  { s with failed_attempts := Function.update s.failed_attempts client [] }

end AuthRateLimiter

/-- One parsed JSON request (`json.loads` of the wire message).  An
`Option` field is `none` when the key is absent; a present JSON `null`
is `some .jNull`. -/
structure Request where
  command : Option String := none
  parameters : Option (List (String × JValue)) := none
  auth_token_hash : Option JValue := none
  request_id : Option JValue := none

/-- The server's authentication configuration after `__init__`:
`auth_enabled` and the stored SHA-256 token hash (a string when auth is
enabled). -/
structure AuthConfig where
  auth_enabled : Bool
  auth_token_hash : Option String

namespace Server

/-- `ConfigurableSocketServer.validate_auth`: always allow when auth is
disabled; deny `rate_limited` when the lockout limiter denies; compare
the request's `auth_token_hash` (a truthy value) for Python equality
with the stored hash; on mismatch record a failure and report
`rate_limited` if that failure blocked the client, else `auth_failed`;
on match re-check the limiter and record the success.  Returns the
verdict pair and the limiter state after the call. -/
def validate_auth (cfg : AuthConfig) (req : Request) (client : String)
    (now : Nat) (s : AuthRateLimiter) : (Bool × String) × AuthRateLimiter :=
  if !cfg.auth_enabled then ((true, ""), s)
  else
    let r1 := AuthRateLimiter.check_rate_limit client now s
    if !r1.1 then ((false, "rate_limited"), r1.2)
    else
      let atk := req.auth_token_hash.getD .jNull
      let stored : JValue :=
        match cfg.auth_token_hash with
        | some h => .jStr h
        | none => .jNull
      let token_valid := pyTruthy atk && pyEq atk stored
      if !token_valid then
        let s2 := AuthRateLimiter.record_failure client now r1.2
        let r3 := AuthRateLimiter.check_rate_limit client now s2
        if !r3.1 then ((false, "rate_limited"), r3.2)
        else ((false, "auth_failed"), r3.2)
      else
        let r4 := AuthRateLimiter.check_rate_limit client now r1.2
        if !r4.1 then ((false, "rate_limited"), r4.2)
        else ((true, ""), AuthRateLimiter.record_success client r4.2)

/-- `ConfigurableSocketServer.check_rate_limit` (the per-request,
non-auth limiter), acting on one client's timestamp list: when enabled,
prune entries older than the window, reject without recording when the
pruned count is at the cap, otherwise record `now` and accept. -/
def check_rate_limit (enable : Bool) (cap window : Nat) (times : List Nat)
    (now : Nat) : Bool × List Nat :=
  if !enable then (true, times)
  else
    let pruned := times.filter (fun t => now - t < window)
    if pruned.length ≥ cap then (false, pruned)
    else (true, pruned ++ [now])

end Server

/-- A request with no `auth_token_hash` field: one failing
authentication attempt. -/
def noTok : Request := {}

/-- A request carrying the client's (already hashed) token. -/
def tokReq (h : String) : Request := { auth_token_hash := some (.jStr h) }

/-- The limiter state in which client `c` has failure list `l` and no
client is blocked (all other failure lists empty): the state reached by
`l.length` in-window failures from a fresh limiter. -/
def failedSt (M W B : Nat) (c : String) (l : List Nat) : AuthRateLimiter :=
  ⟨M, W, B, Function.update (fun _ => []) c l, fun _ => none⟩

/-- The limiter state in which client `c` has failure list `l` and is
blocked until `u`. -/
def blockedSt (M W B : Nat) (c : String) (l : List Nat) (u : Nat) :
    AuthRateLimiter :=
  ⟨M, W, B, Function.update (fun _ => []) c l,
    Function.update (fun _ => none) c (some u)⟩

/-- Iterated failing authentication attempts (requests with no token),
one per timestamp in the list, threading the limiter state. -/
def run_failures (cfg : AuthConfig) (c : String) :
    AuthRateLimiter → List Nat → AuthRateLimiter
  | s, [] => s
  | s, t :: ts => run_failures cfg c (Server.validate_auth cfg noTok c t s).2 ts

/-- Iterated requests through the per-request rate limiter, returning
each verdict and the final timestamp list. -/
def run_requests (cap window : Nat) :
    List Nat → List Nat → List Bool × List Nat
  | acc, [] => ([], acc)
  | acc, t :: ts =>
    let r := Server.check_rate_limit true cap window acc t
    let rest := run_requests cap window r.2 ts
    (r.1 :: rest.1, rest.2)

/-- One whitelisted command of the configuration (`CommandSpec`), with
the source's defaults for absent keys (`timeout` 10, `cwd` the root).
The optional `response_format` post-processing key is outside the model
(it only ever adds `parsed_output` / `parse_error` fields). -/
structure CommandSpec where
  executable : List String
  description : String := ""
  timeout : Nat := 10
  cwd : String := "/"
  env : Option (List (String × String)) := none
  parameters : Option (List (String × ParameterSpec)) := none
  examples : List JValue := []
deriving DecidableEq

/-- The truncation marker appended to over-long subprocess output. -/
def truncation_marker : List Char := "\n... (output truncated)".toList

/-- The `stdout` (or `stderr`) field of an execution response: the
output cut to `max_output_size` characters, the marker appended when the
output was longer, and Python `.strip()` applied to the result
(`stdout.strip()` in the response construction). -/
def stdout_field (maxSize : Nat) (out : List Char) : List Char :=
  py_strip (if maxSize < out.length then out.take maxSize ++ truncation_marker
            else out.take maxSize)

namespace Server

/-- How one declared request parameter is rendered into argv, by its
declared `style`: `flag` gives `--name value` as two entries, `argument`
the bare stringified value, `single_flag` one `--name=value` token, and
any other style nothing. -/
def render_param (name : String) (pc : ParameterSpec) (v : JValue) : List String :=
  if pc.style == "flag" then ["--" ++ name, pyStr v]
  else if pc.style == "argument" then [pyStr v]
  else if pc.style == "single_flag" then ["--" ++ name ++ "=" ++ pyStr v]
  else []

/-- The request parameters that are declared in the command's
configuration (the ones `execute_command`'s loop does not skip). -/
def declared_params (cps : List (String × ParameterSpec))
    (rps : List (String × JValue)) : List (String × JValue) :=
  rps.filter (fun p => (List.lookup p.1 cps).isSome)

/-- The argv built by `execute_command`: the configured `executable`
list, then, when both the command declares parameters and the request
carries some, each request parameter in request order — rendered by its
declared style when the command declares it, silently skipped when
not. -/
def build_argv (executable : List String)
    (cfgParams : Option (List (String × ParameterSpec)))
    (reqParams : Option (List (String × JValue))) : List String :=
  match cfgParams, reqParams with
  | some cps, some rps =>
    rps.foldl (fun acc p =>
      match List.lookup p.1 cps with
      | some pc => acc ++ render_param p.1 pc p.2
      | none => acc) executable
  | _, _ => executable

/-- The environment the subprocess is started with:
`cmd_config.get('env', {'PATH': '/usr/bin:/bin'})`, passed to
`subprocess.run(..., env=env)`, which replaces the child's environment
wholesale.  `serverEnv` is the server's own inherited `os.environ`; the
child would receive it only if `env=None` were passed, which never
happens. -/
def execute_env (cc : CommandSpec) (serverEnv : List (String × String)) :
    List (String × String) :=
  match cc.env with
  | some e => e
  | none => [("PATH", "/usr/bin:/bin")]

end Server

/-- The arguments `execute_command` hands to `subprocess.run`. -/
structure SubprocessCall where
  argv : List String
  env : List (String × String)
  cwd : String
  timeout : Nat
deriving DecidableEq

/-- A completed subprocess (`subprocess.run` result). -/
structure ProcResult where
  returncode : Int
  stdout : String
  stderr : String

/-- The outcome of a `subprocess.run` call: completion, the
`TimeoutExpired` exception, or any other exception (with its text). -/
inductive ExecOutcome where
  | ran (r : ProcResult)
  | timedOut
  | failed (msg : String)

/-- A JSON value of a response dict: a scalar, a nested object (in
insertion order) or an array. -/
inductive RVal where
  | ofJ (v : JValue)
  | rObj (fields : List (String × RVal))
  | rList (xs : List RVal)

/-- Python dict assignment `d[k] = v` on a response: replace the value
in place when the key exists (keys of a dict are unique, so at most one
entry carries it), else append the pair at the end. -/
def dict_set : List (String × RVal) → String → RVal → List (String × RVal)
  | [], k, v => [(k, v)]
  | (a, b) :: tl, k, v =>
    if a == k then (k, v) :: tl else (a, b) :: dict_set tl k v

/-- The server as constructed from its configuration, together with its
mutable per-process state (the two limiter maps) and the inherited
`os.environ`. -/
structure ServerState where
  name : String := ""
  description : String := ""
  version : String := "1.0.0"
  commands : List (String × CommandSpec) := []
  enable_rate_limit : Bool := true
  rate_requests : Nat := 30
  rate_window : Nat := 60
  max_output_size : Nat := 100000
  debug : Bool := false
  auth : AuthConfig := ⟨false, none⟩
  limiter : AuthRateLimiter
  request_times : String → List Nat
  os_environ : List (String × String) := []

namespace Server

/-- A declared parameter's schema as exposed by introspection (the
model normalises defaults to explicit fields; the raw regex source text
of `pattern` is not retained). -/
def param_spec_json (p : ParameterSpec) : RVal :=
  .rObj ([("type", .ofJ (.jStr p.type)),
          ("required", .ofJ (.jBool p.required)),
          ("style", .ofJ (.jStr p.style))]
    ++ (match p.max_length with
        | some m => [("max_length", .ofJ (.jNum m))]
        | none => [])
    ++ (match p.enum with
        | some es => [("enum", .rList (es.map RVal.ofJ))]
        | none => []))

/-- `ConfigurableSocketServer.handle_introspection`: the full command
catalogue. -/
def handle_introspection (S : ServerState) : List (String × RVal) :=
  [("success", .ofJ (.jBool true)),
   ("server_info", .rObj
     [("name", .ofJ (.jStr S.name)),
      ("description", .ofJ (.jStr S.description)),
      ("version", .ofJ (.jStr S.version)),
      ("commands", .rObj (S.commands.map (fun p =>
        (p.1, .rObj
          [("description", .ofJ (.jStr p.2.description)),
           ("parameters", .rObj ((p.2.parameters.getD []).map
             (fun q => (q.1, param_spec_json q.2)))),
           ("examples", .rList (p.2.examples.map RVal.ofJ))]))))])]

/-- The loop of `validate_request` over the command's declared
parameters, in declaration order: a required parameter that is absent
(or JSON null — Python's `.get` cannot tell them apart) rejects, a
present parameter failing `validate_parameter_value` rejects, the first
failure wins. -/
def validate_params (rparams : List (String × JValue)) :
    List (String × ParameterSpec) → Bool × String
  | [] => (true, "")
  | (name, pc) :: rest =>
    let pv := (List.lookup name rparams).getD .jNull
    if pc.required && pv.isNull then
      (false, "Missing required parameter: " ++ name)
    else if !pv.isNull && !(validate_parameter_value pv pc) then
      (false, "Invalid value for parameter '" ++ name ++ "'")
    else validate_params rparams rest

/-- `ConfigurableSocketServer.validate_request`: missing `command`
rejects; the reserved names `__introspect__` and `__ping__` are always
valid, before the whitelist is consulted; an unknown command rejects
with a message listing the available command names; otherwise the
declared parameters are validated. -/
def validate_request (commands : List (String × CommandSpec)) (req : Request) :
    Bool × String :=
  match req.command with
  | none => (false, "Missing 'command' field")
  | some c =>
    if c == "__introspect__" || c == "__ping__" then (true, "")
    else
      match List.lookup c commands with
      | none =>
        (false, "Unknown command '" ++ c ++ "'. Available: " ++
          pyListRepr (commands.map Prod.fst))
      | some cc =>
        match cc.parameters with
        | none => (true, "")
        | some cps => validate_params (req.parameters.getD []) cps

/-- `ConfigurableSocketServer.execute_command`.  The reserved commands
short-circuit; otherwise argv, environment, cwd and timeout are
assembled and handed to the subprocess (abstracted as `oracle`), and the
response is built from the outcome, with stdout/stderr truncated and
stripped.  The dispatch `lookup` cannot miss after `validate_request`;
were it to miss, the raised `KeyError` would surface as the generic
handler response. -/
def execute_command (S : ServerState) (req : Request)
    (oracle : SubprocessCall → ExecOutcome) (now : Nat) :
    List (String × RVal) :=
  let command := req.command.getD ""
  if command == "__introspect__" then handle_introspection S
  else if command == "__ping__" then
    [("success", .ofJ (.jBool true)),
     ("message", .ofJ (.jStr "pong")),
     ("timestamp", .ofJ (.jNum now))]
  else
    match List.lookup command S.commands with
    | none => [("success", .ofJ (.jBool false)),
               ("error", .ofJ (.jStr "Internal server error"))]
    | some cc =>
      let call : SubprocessCall :=
        ⟨build_argv cc.executable cc.parameters req.parameters,
         execute_env cc S.os_environ, cc.cwd, cc.timeout⟩
      match oracle call with
      | .ran r =>
        [("success", .ofJ (.jBool (r.returncode == 0))),
         ("command", .ofJ (.jStr command)),
         ("returncode", .ofJ (.jNum r.returncode)),
         ("stdout", .ofJ (.jStr ⟨stdout_field S.max_output_size r.stdout.toList⟩)),
         ("stderr", .ofJ (.jStr ⟨stdout_field S.max_output_size r.stderr.toList⟩))]
      | .timedOut =>
        [("success", .ofJ (.jBool false)),
         ("error", .ofJ (.jStr ("Command timeout after " ++ toString cc.timeout
           ++ " seconds"))),
         ("command", .ofJ (.jStr command))]
      | .failed msg =>
        [("success", .ofJ (.jBool false)),
         ("error", .ofJ (.jStr "Command execution failed")),
         ("details", if S.debug then .ofJ (.jStr msg) else .ofJ .jNull),
         ("command", .ofJ (.jStr command))]

/-- `ConfigurableSocketServer.handle_client`, from the per-request rate
check to the response written back (framing errors, which precede any
parsed request, are outside the model).  The rate-limit rejection is
built before the request is even read; the auth rejections carry
`request.get('request_id')`; on the remaining paths `request_id` is
copied onto whatever response resulted, when present on the request. -/
def handle_client (S : ServerState) (clientId authClientId : String)
    (now : Nat) (req : Request) (oracle : SubprocessCall → ExecOutcome) :
    List (String × RVal) × ServerState :=
  let r := check_rate_limit S.enable_rate_limit S.rate_requests S.rate_window
    (S.request_times clientId) now
  let S1 := { S with request_times := Function.update S.request_times clientId r.2 }
  if !r.1 then
    ([("success", .ofJ (.jBool false)),
      ("error", .ofJ (.jStr "Rate limit exceeded")),
      ("retry_after", .ofJ (.jNum S.rate_window))], S1)
  else
    let ar := validate_auth S.auth req authClientId now S.limiter
    let S2 := { S1 with limiter := ar.2 }
    if !ar.1.1 then
      if ar.1.2 == "rate_limited" then
        ([("success", .ofJ (.jBool false)),
          ("error", .ofJ (.jStr
            "Too many failed authentication attempts. Please try again later.")),
          ("request_id", .ofJ (req.request_id.getD .jNull))], S2)
      else
        ([("success", .ofJ (.jBool false)),
          ("error", .ofJ (.jStr "Authentication failed")),
          ("request_id", .ofJ (req.request_id.getD .jNull))], S2)
    else
      let v := validate_request S.commands req
      let resp :=
        if !v.1 then [("success", .ofJ (.jBool false)), ("error", .ofJ (.jStr v.2))]
        else execute_command S2 req oracle now
      let resp :=
        match req.request_id with
        | some rid => dict_set resp "request_id" (.ofJ rid)
        | none => resp
      (resp, S2)

end Server

/-- The authentication-relevant keys of the JSON configuration file
(`none` models an absent key). -/
structure ConfigFile where
  auth_enabled : Option Bool := none
  auth_token_hash : Option String := none

/-- The authentication-relevant environment variables (`none` models an
unset variable). -/
structure EnvMap where
  auth_enabled_var : Option String := none
  auth_token_hash_var : Option String := none

namespace Server

/-- `ConfigurableSocketServer._load_auth_config`: the config file's
`auth_enabled` wins; else the `AUTH_ENABLED` variable, lower-cased,
against the accepted spellings; else disabled. -/
def load_auth_config (config : ConfigFile) (env : EnvMap) : Bool :=
  match config.auth_enabled with
  | some b => b
  | none =>
    match env.auth_enabled_var with
    | some s => ["true", "1", "yes", "on"].contains s.toLower
    | none => false

/-- `ConfigurableSocketServer._load_auth_token_hash`: the
`AUTH_TOKEN_HASH` variable when truthy (set and non-empty), else the
config file's `auth_token_hash` when the key is present, else nothing. -/
def load_auth_token_hash (config : ConfigFile) (env : EnvMap) : Option String :=
  match env.auth_token_hash_var with
  | some h => if h == "" then config.auth_token_hash else some h
  | none => config.auth_token_hash

end Server

/-- The outcome of the authentication part of
`ConfigurableSocketServer.__init__`: either the fatal `sys.exit(1)`
(taken before any socket is created or bound — binding happens later, in
`start_server`), or a constructed server with its auth fields. -/
inductive AuthInit where
  | fatal
  | ok (enabled : Bool) (hash : Option String)
deriving DecidableEq

namespace Server

/-- The authentication setup in `__init__`: when auth is enabled and the
loaded token hash is falsy (absent or empty), the process exits fatally;
otherwise construction proceeds with the loaded values. -/
def init_auth (config : ConfigFile) (env : EnvMap) : AuthInit :=
  let enabled := load_auth_config config env
  if enabled then
    match load_auth_token_hash config env with
    | some h => if h == "" then .fatal else .ok true (some h)
    | none => .fatal
  else .ok false none

end Server


/-! ### Helper lemmas -/

/-- `startMatch` is exactly "some prefix of the input matches the whole
regex": the meaning of Python `re.match`. -/
lemma startMatch_iff_matching_pre (l : List Char) (r : Regex) :
    startMatch r l = true ↔ ∃ t u, l = t ++ u ∧ rmatch r t = true := by
  induction l generalizing r with
  | nil =>
    constructor
    · intro h; exact ⟨[], [], rfl, h⟩
    · rintro ⟨t, u, heq, hm⟩
      obtain ⟨rfl, rfl⟩ := List.append_eq_nil.mp heq.symm
      exact hm
  | cons c cs ih =>
    constructor
    · intro h
      rcases Bool.or_eq_true_iff.mp h with h | h
      · exact ⟨[], c :: cs, rfl, h⟩
      · obtain ⟨t, u, heq, hm⟩ := (ih (rderiv r c)).mp h
        exact ⟨c :: t, u, by rw [heq, List.cons_append], hm⟩
    · rintro ⟨t, u, heq, hm⟩
      cases t with
      | nil => exact Bool.or_eq_true_iff.mpr (Or.inl hm)
      | cons c' t' =>
        rw [List.cons_append] at heq
        injection heq with h1 h2
        subst h1
        exact Bool.or_eq_true_iff.mpr
          (Or.inr ((ih (rderiv r c)).mpr ⟨t', u, h2, hm⟩))

/-- `py_strip` only removes characters from the two ends: the result is
a contiguous infix of the input. -/
lemma py_strip_infix_of (l : List Char) : py_strip l <:+: l := by
  unfold py_strip
  have h1 : l.dropWhile pyIsSpace <:+ l := List.dropWhile_suffix pyIsSpace
  have h2 : (l.dropWhile pyIsSpace).reverse.dropWhile pyIsSpace <:+
      (l.dropWhile pyIsSpace).reverse := List.dropWhile_suffix pyIsSpace
  obtain ⟨t, ht⟩ := h2
  have h3 : ((l.dropWhile pyIsSpace).reverse.dropWhile pyIsSpace).reverse <+:
      l.dropWhile pyIsSpace := by
    refine ⟨t.reverse, ?_⟩
    have h4 := congrArg List.reverse ht
    rw [List.reverse_reverse, List.reverse_append] at h4
    exact h4
  exact h3.isInfix.trans h1.isInfix

/-- Looking up the key just set by `dict_set` yields the new value. -/
lemma lookup_dict_set (l : List (String × RVal)) (k : String) (v : RVal) :
    List.lookup k (dict_set l k v) = some v := by
  induction l with
  | nil => simp [dict_set, List.lookup]
  | cons a tl ih =>
    obtain ⟨a1, a2⟩ := a
    by_cases hk : a1 = k
    · subst hk
      simp [dict_set, List.lookup]
    · have hne : (k == a1) = false := beq_eq_false_iff_ne.mpr (Ne.symm hk)
      have hne' : (a1 == k) = false := beq_eq_false_iff_ne.mpr hk
      rw [dict_set, if_neg (by simp [hne'])]
      simpa [List.lookup, hne] using ih

/-! ### C3: parameter pattern validation -/

/-- C3 (counterexample): the claim says a string value passes a declared
`pattern` only when the regex matches the entire value.  For the pattern
`a` and the value `"ab"` the regex matches only a proper prefix, yet
`validate_parameter_value` accepts: `re.match` anchors at the start
only. -/
theorem c3_counterexample :
    Server.validate_parameter_value (.jStr "ab")
      ⟨"string", false, "flag", some (.chr 'a'), none, none⟩ = true ∧
    rmatch (.chr 'a') "ab".toList = false := by
  exact ⟨rfl, rfl⟩

/-- C3 (amended): for a string parameter declaring a pattern (and no
enum or length bound), a supplied string value is accepted iff the regex
matches some prefix of the value (`re.match` semantics, anchored at the
start only — full-match only when the pattern itself ends in `$`). -/
theorem c3_pattern_start_anchored (p : Regex) (s : String) :
    Server.validate_parameter_value (.jStr s)
      ⟨"string", false, "flag", some p, none, none⟩ = startMatch p s.toList ∧
    (startMatch p s.toList = true ↔
      ∃ t u, s.toList = t ++ u ∧ rmatch p t = true) := by
  constructor
  · cases h : startMatch p s.toList <;>
      · simp only [String.toList] at h
        simp [Server.validate_parameter_value, JValue.isString, h]
  · exact startMatch_iff_matching_pre s.toList p

/-! ### C5: output truncation -/

/-- C5 (counterexample): the claim says the `stdout` field of a
truncated response is exactly the first `max_output_size` bytes of the
output followed by the marker.  With `max_output_size = 3` and output
`" ab c"` the field is `"ab\n... (output truncated)"` — the leading
space of the output is stripped away by the response's `.strip()` — not
`" ab" ++ marker`. -/
theorem c5_counterexample :
    stdout_field 3 " ab c".toList ≠ " ab c".toList.take 3 ++ truncation_marker := by
  decide

/-- C5 (amended): when the output exceeds `max_output_size`, the field
is the first `max_output_size` characters of the output with the marker
appended, then whitespace-stripped at both ends (Python `.strip()`); in
particular it is a contiguous infix of those characters plus marker, so
it never contains more of the output than the first `max_output_size`
characters. -/
theorem c5_truncated_output (maxSize : Nat) (out : List Char)
    (h : maxSize < out.length) :
    stdout_field maxSize out = py_strip (out.take maxSize ++ truncation_marker) ∧
    stdout_field maxSize out <:+: out.take maxSize ++ truncation_marker := by
  constructor
  · simp [stdout_field, h]
  · simp only [stdout_field, if_pos h]
    exact py_strip_infix_of _

/-- C5 witness: the amended theorem applied at `max_output_size = 3`,
output `" ab c"`. -/
theorem c5_witness :
    3 < " ab c".toList.length ∧
    (stdout_field 3 " ab c".toList =
        py_strip (" ab c".toList.take 3 ++ truncation_marker) ∧
      stdout_field 3 " ab c".toList <:+: " ab c".toList.take 3 ++ truncation_marker) :=
  ⟨by decide, c5_truncated_output 3 " ab c".toList (by decide)⟩

/-! ### C6: subprocess environment replacement -/

/-- C6: the environment handed to the subprocess is exactly the command
spec's `env` map (the minimal `PATH`-only map when the spec declares
none), and is independent of the server's own inherited environment —
no variable of `os.environ` reaches the child. -/
theorem c6_env_replaced (cc : CommandSpec) (e1 e2 : List (String × String)) :
    Server.execute_env cc e1 = Server.execute_env cc e2 ∧
    Server.execute_env cc e1 = cc.env.getD [("PATH", "/usr/bin:/bin")] := by
  cases h : cc.env <;> simp [Server.execute_env, h]

/-! ### C8: fatal startup without a token hash -/

/-- C8: with auth enabled and no token hash supplied by either the
`AUTH_TOKEN_HASH` environment variable or the config file's
`auth_token_hash` key, `__init__` exits fatally (`sys.exit(1)`); the
socket is only ever bound later, in `start_server`, on a successfully
constructed server. -/
theorem c8_fatal_without_token_hash (config : ConfigFile) (env : EnvMap)
    (hEnabled : Server.load_auth_config config env = true)
    (hEnv : env.auth_token_hash_var = none)
    (hCfg : config.auth_token_hash = none) :
    Server.init_auth config env = .fatal := by
  simp [Server.init_auth, Server.load_auth_token_hash, hEnabled, hEnv, hCfg]

/-- C8 witness: auth enabled via the config file, no hash anywhere. -/
theorem c8_witness :
    Server.load_auth_config ⟨some true, none⟩ ⟨none, none⟩ = true ∧
    (⟨none, none⟩ : EnvMap).auth_token_hash_var = none ∧
    (⟨some true, none⟩ : ConfigFile).auth_token_hash = none ∧
    Server.init_auth ⟨some true, none⟩ ⟨none, none⟩ = .fatal :=
  ⟨rfl, rfl, rfl, c8_fatal_without_token_hash ⟨some true, none⟩ ⟨none, none⟩ rfl rfl rfl⟩

/-! ### C9: command dispatch -/

/-- C9: the reserved names `__introspect__` and `__ping__` are accepted
by `validate_request` for every configuration, also when absent from the
command map; every other command name not in the map is rejected with
the message that enumerates the available command names. -/
theorem c9_reserved_and_unknown_commands
    (commands : List (String × CommandSpec))
    (ps : Option (List (String × JValue))) (c : String)
    (h1 : c ≠ "__introspect__") (h2 : c ≠ "__ping__")
    (h3 : List.lookup c commands = none) :
    Server.validate_request commands
      { command := some "__introspect__", parameters := ps } = (true, "") ∧
    Server.validate_request commands
      { command := some "__ping__", parameters := ps } = (true, "") ∧
    Server.validate_request commands { command := some c, parameters := ps } =
      (false, "Unknown command '" ++ c ++ "'. Available: " ++
        pyListRepr (commands.map Prod.fst)) := by
  refine ⟨by simp [Server.validate_request], by simp [Server.validate_request], ?_⟩
  simp [Server.validate_request, h1, h2, h3]

/-- C9 witness: one configured command `ls`, request for the unknown
command `pwd`. -/
theorem c9_witness :
    ("pwd" ≠ "__introspect__") ∧ ("pwd" ≠ "__ping__") ∧
    List.lookup "pwd" [("ls", ({ executable := ["ls"] } : CommandSpec))] = none ∧
    (Server.validate_request [("ls", { executable := ["ls"] })]
        { command := some "__introspect__", parameters := none } = (true, "") ∧
      Server.validate_request [("ls", { executable := ["ls"] })]
        { command := some "__ping__", parameters := none } = (true, "") ∧
      Server.validate_request [("ls", { executable := ["ls"] })]
        { command := some "pwd", parameters := none } =
        (false, "Unknown command '" ++ "pwd" ++ "'. Available: " ++
          pyListRepr ([("ls", ({ executable := ["ls"] } : CommandSpec))].map Prod.fst))) :=
  ⟨by decide, by decide, rfl,
    c9_reserved_and_unknown_commands [("ls", { executable := ["ls"] })] none "pwd"
      (by decide) (by decide) rfl⟩

/-! ### C10: undeclared request parameters -/

/-- Undeclared request parameters contribute nothing to the argv fold:
`build_argv` only sees the declared sublist, in request order. -/
lemma build_argv_declared_only (cps : List (String × ParameterSpec)) :
    ∀ (rps : List (String × JValue)) (exe : List String),
      Server.build_argv exe (some cps) (some rps) =
        Server.build_argv exe (some cps) (some (Server.declared_params cps rps)) := by
  intro rps
  induction rps with
  | nil => intro exe; rfl
  | cons p rest ih =>
    intro exe
    obtain ⟨n, v⟩ := p
    cases h : List.lookup n cps with
    | none =>
      have hd : Server.declared_params cps ((n, v) :: rest) =
          Server.declared_params cps rest := by
        simp [Server.declared_params, List.filter_cons, h]
      rw [hd]
      show List.foldl _ exe ((n, v) :: rest) = _
      rw [List.foldl_cons]
      simp only [h]
      exact ih exe
    | some pc =>
      have hd : Server.declared_params cps ((n, v) :: rest) =
          (n, v) :: Server.declared_params cps rest := by
        simp [Server.declared_params, List.filter_cons, h]
      rw [hd]
      show List.foldl _ exe ((n, v) :: rest) =
          List.foldl _ exe ((n, v) :: Server.declared_params cps rest)
      rw [List.foldl_cons, List.foldl_cons]
      simp only [h]
      exact ih _

/-- C10 (counterexample): the claim says two requests agreeing on all
declared parameters (here `a` and `b`) but differing in extra undeclared
ones build the same argv.  The argv, however, follows the request dict's
insertion order: with the declared entries in a different order the two
argvs differ, although both requests map `a` and `b` to the same
values and differ otherwise only in the undeclared `junk`. -/
theorem c10_counterexample :
    (List.lookup "a" [("a", JValue.jStr "1"), ("b", JValue.jStr "2")] =
        List.lookup "a" [("b", JValue.jStr "2"), ("a", JValue.jStr "1"),
          ("junk", JValue.jStr "3")] ∧
      List.lookup "b" [("a", JValue.jStr "1"), ("b", JValue.jStr "2")] =
        List.lookup "b" [("b", JValue.jStr "2"), ("a", JValue.jStr "1"),
          ("junk", JValue.jStr "3")] ∧
      List.lookup "junk"
        [("a", (⟨"string", false, "flag", none, none, none⟩ : ParameterSpec)),
         ("b", ⟨"string", false, "flag", none, none, none⟩)] = none) ∧
    Server.build_argv ["e"]
        (some [("a", ⟨"string", false, "flag", none, none, none⟩),
               ("b", ⟨"string", false, "flag", none, none, none⟩)])
        (some [("a", .jStr "1"), ("b", .jStr "2")]) ≠
      Server.build_argv ["e"]
        (some [("a", ⟨"string", false, "flag", none, none, none⟩),
               ("b", ⟨"string", false, "flag", none, none, none⟩)])
        (some [("b", .jStr "2"), ("a", .jStr "1"), ("junk", .jStr "3")]) := by
  refine ⟨⟨rfl, rfl, rfl⟩, by decide⟩

/-- C10 (amended): requests that agree on the ordered sequence of
declared parameter entries (same names, values and relative order) build
the same argv, however they differ in additional undeclared parameters;
undeclared parameters are silently ignored and never contribute to the
executed argv. -/
theorem c10_undeclared_params_ignored (cps : List (String × ParameterSpec))
    (exe : List String) (rps1 rps2 : List (String × JValue))
    (h : Server.declared_params cps rps1 = Server.declared_params cps rps2) :
    Server.build_argv exe (some cps) (some rps1) =
      Server.build_argv exe (some cps) (some rps2) ∧
    Server.build_argv exe (some cps) (some rps1) =
      Server.build_argv exe (some cps) (some (Server.declared_params cps rps1)) := by
  refine ⟨?_, build_argv_declared_only cps rps1 exe⟩
  rw [build_argv_declared_only, h, ← build_argv_declared_only]

/-- C10 witness: the amended theorem applied to a request with an extra
undeclared `junk` parameter appended. -/
theorem c10_witness :
    Server.declared_params [("a", ⟨"string", false, "flag", none, none, none⟩)]
        [("a", .jStr "1")] =
      Server.declared_params [("a", ⟨"string", false, "flag", none, none, none⟩)]
        [("a", .jStr "1"), ("junk", .jStr "9")] ∧
    (Server.build_argv ["e"]
        (some [("a", ⟨"string", false, "flag", none, none, none⟩)])
        (some [("a", .jStr "1")]) =
      Server.build_argv ["e"]
        (some [("a", ⟨"string", false, "flag", none, none, none⟩)])
        (some [("a", .jStr "1"), ("junk", .jStr "9")]) ∧
     Server.build_argv ["e"]
        (some [("a", ⟨"string", false, "flag", none, none, none⟩)])
        (some [("a", .jStr "1")]) =
      Server.build_argv ["e"]
        (some [("a", ⟨"string", false, "flag", none, none, none⟩)])
        (some (Server.declared_params
          [("a", ⟨"string", false, "flag", none, none, none⟩)]
          [("a", .jStr "1")]))) :=
  ⟨by decide, c10_undeclared_params_ignored _ ["e"] _ _ (by decide)⟩

/-! ### C2: request_id round-trip -/

/-- C2 (counterexample): the claim includes the rate-limit rejection
among the outcomes that echo `request_id`.  But the per-request rate
check runs before the request is read: its rejection response carries no
`request_id` even though the request has one. -/
theorem c2_counterexample :
    List.lookup "request_id"
      (Server.handle_client
        { commands := [],
          enable_rate_limit := true, rate_requests := 1, rate_window := 60,
          limiter := ⟨5, 60, 60, fun _ => [], fun _ => none⟩,
          request_times := fun _ => [0] }
        "c" "c" 0
        { command := some "__ping__", request_id := some (.jStr "abc") }
        (fun _ => .timedOut)).1 = none ∧
    ({ command := some "__ping__", request_id := some (.jStr "abc") } :
      Request).request_id = some (.jStr "abc") :=
  ⟨rfl, rfl⟩

/-- C2 (amended): once a request has been read at all — that is, when
the connection-level rate check passes — a `request_id` present on the
request is present and unchanged on every resulting response: auth
rate-limit rejection, auth failure, validation failure, and execution
(success or not, whatever the subprocess does). -/
theorem c2_request_id_roundtrip (S : ServerState) (cid acid : String)
    (now : Nat) (req : Request) (oracle : SubprocessCall → ExecOutcome)
    (v : JValue)
    (hrid : req.request_id = some v)
    (hrate : (Server.check_rate_limit S.enable_rate_limit S.rate_requests
      S.rate_window (S.request_times cid) now).1 = true) :
    List.lookup "request_id" (Server.handle_client S cid acid now req oracle).1 =
      some (.ofJ v) := by
  simp only [Server.handle_client, hrate, hrid, Bool.not_true, Bool.false_eq_true,
    if_false, Option.getD_some]
  split
  · split
    · simp [List.lookup]
    · simp [List.lookup]
  · exact lookup_dict_set _ "request_id" (.ofJ v)

/-- C2 witness: a fresh server, a ping request carrying a
`request_id`. -/
theorem c2_witness :
    ({ command := some "__ping__", request_id := some (.jStr "abc") } :
      Request).request_id = some (.jStr "abc") ∧
    (Server.check_rate_limit
      ({ commands := [], limiter := ⟨5, 60, 60, fun _ => [], fun _ => none⟩,
         request_times := fun _ => [] } : ServerState).enable_rate_limit
      ({ commands := [], limiter := ⟨5, 60, 60, fun _ => [], fun _ => none⟩,
         request_times := fun _ => [] } : ServerState).rate_requests
      ({ commands := [], limiter := ⟨5, 60, 60, fun _ => [], fun _ => none⟩,
         request_times := fun _ => [] } : ServerState).rate_window
      (({ commands := [], limiter := ⟨5, 60, 60, fun _ => [], fun _ => none⟩,
          request_times := fun _ => [] } : ServerState).request_times "c") 0).1 =
      true ∧
    List.lookup "request_id"
      (Server.handle_client
        { commands := [], limiter := ⟨5, 60, 60, fun _ => [], fun _ => none⟩,
          request_times := fun _ => [] }
        "c" "c" 0
        { command := some "__ping__", request_id := some (.jStr "abc") }
        (fun _ => .timedOut)).1 = some (.ofJ (.jStr "abc")) :=
  ⟨rfl, rfl,
    c2_request_id_roundtrip
      { commands := [], limiter := ⟨5, 60, 60, fun _ => [], fun _ => none⟩,
        request_times := fun _ => [] }
      "c" "c" 0
      { command := some "__ping__", request_id := some (.jStr "abc") }
      (fun _ => .timedOut) (.jStr "abc") rfl rfl⟩

/-! ### C4: per-request sliding-window rate limiter -/

/-- A sequence of requests whose timestamps pairwise fit in the window
and whose total count fits under the cap is accepted in full, each
accepted timestamp being recorded. -/
lemma run_requests_all_accepted (cap W : Nat) :
    ∀ (ts acc : List Nat),
      (acc ++ ts).Pairwise (fun a b => b - a < W) →
      acc.length + ts.length ≤ cap →
      run_requests cap W acc ts = (List.replicate ts.length true, acc ++ ts) := by
  intro ts
  induction ts with
  | nil => intro acc _ _; simp [run_requests]
  | cons t ts ih =>
    intro acc hp hlen
    have hacc : ∀ x ∈ acc, t - x < W := fun x hx =>
      (List.pairwise_append.mp hp).2.2 x hx t (List.mem_cons_self t ts)
    have hfilter : acc.filter (fun x => decide (t - x < W)) = acc :=
      List.filter_eq_self.mpr (fun a ha => by simpa using hacc a ha)
    have hlt : ¬ acc.length ≥ cap := by
      simp only [List.length_cons] at hlen; omega
    have hcheck : Server.check_rate_limit true cap W acc t = (true, acc ++ [t]) := by
      unfold Server.check_rate_limit
      simp [hfilter, hlt]
    have hp' : ((acc ++ [t]) ++ ts).Pairwise (fun a b => b - a < W) := by
      rw [List.append_assoc, List.singleton_append]; exact hp
    have hlen' : (acc ++ [t]).length + ts.length ≤ cap := by
      simp only [List.length_append, List.length_singleton]
      simp only [List.length_cons] at hlen; omega
    have hrec := ih (acc ++ [t]) hp' hlen'
    simp only [run_requests, hcheck, hrec, List.length_cons, List.replicate_succ,
      List.append_assoc, List.singleton_append]

/-- C4: for a rate limiter `{requests: N, window: W}` (N positive) and
any client: N requests whose timestamps pairwise fit in the window are
all accepted from a fresh state; an (N+1)-th request still inside the
window of all of them is rejected, consuming no quota (the state keeps
exactly the N accepted stamps); and a request arriving more than W
seconds after every accepted one is accepted, the stale entries being
pruned by the check. -/
theorem c4_sliding_window_rate_limit (N W : Nat) (ts : List Nat) (t4 t5 : Nat)
    (hN : 0 < N) (hlen : ts.length = N)
    (hp : ts.Pairwise (fun a b => b - a < W))
    (hnext : ∀ x ∈ ts, t4 - x < W)
    (hlate : ∀ x ∈ ts, x + W < t5) :
    run_requests N W [] ts = (List.replicate N true, ts) ∧
    Server.check_rate_limit true N W ts t4 = (false, ts) ∧
    Server.check_rate_limit true N W ts t5 = (true, [t5]) := by
  refine ⟨?_, ?_, ?_⟩
  · have h := run_requests_all_accepted N W ts [] (by simpa using hp)
      (by simp [hlen])
    simpa [hlen] using h
  · have hfilter : ts.filter (fun x => decide (t4 - x < W)) = ts :=
      List.filter_eq_self.mpr fun a ha => by simpa using hnext a ha
    unfold Server.check_rate_limit
    simp [hfilter, hlen]
  · have hfilter : ts.filter (fun x => decide (t5 - x < W)) = [] := by
      rw [List.filter_eq_nil_iff]
      intro a ha
      have := hlate a ha
      simp only [decide_eq_true_eq]
      omega
    unfold Server.check_rate_limit
    simp [hfilter, hN, Nat.not_le.mpr hN]

/-- C4 witness: `{requests: 2, window: 5}`, accepted stamps 0 and 1, a
third request at 2 (rejected), a later one at 10 (accepted). -/
theorem c4_witness :
    0 < 2 ∧ [0, 1].length = 2 ∧
    ([0, 1] : List Nat).Pairwise (fun a b => b - a < 5) ∧
    (∀ x ∈ ([0, 1] : List Nat), 2 - x < 5) ∧
    (∀ x ∈ ([0, 1] : List Nat), x + 5 < 10) ∧
    (run_requests 2 5 [] [0, 1] = (List.replicate 2 true, [0, 1]) ∧
      Server.check_rate_limit true 2 5 [0, 1] 2 = (false, [0, 1]) ∧
      Server.check_rate_limit true 2 5 [0, 1] 10 = (true, [10])) :=
  ⟨by decide, by decide, by decide, by decide, by decide,
    c4_sliding_window_rate_limit 2 5 [0, 1] 2 10 (by decide) (by decide)
      (by decide) (by decide) (by decide)⟩

/-! ### C1 and C7: auth lockout state machine -/

/-- Updating the empty-failure map with an empty list changes nothing. -/
lemma update_const_nil (c : String) :
    Function.update (fun _ => ([] : List Nat)) c [] = fun _ => [] :=
  Function.update_eq_self c (fun _ => [])

/-- Pointwise filtering of a one-client failure map. -/
lemma filter_update_pointwise (c : String) (l : List Nat) (p : Nat → Bool) :
    (fun x => (Function.update (fun _ => ([] : List Nat)) c l x).filter p) =
      Function.update (fun _ => []) c (l.filter p) := by
  funext x
  by_cases h : x = c <;> simp [Function.update_apply, h]

/-- `cleanup_old_entries` on a one-client unblocked state filters that
client's list and leaves everything else empty. -/
lemma cleanup_failedSt (now M W B : Nat) (c : String) (l : List Nat) :
    AuthRateLimiter.cleanup_old_entries now (failedSt M W B c l) =
      failedSt M W B c (l.filter (fun t => decide (now - t < W))) := by
  simp only [AuthRateLimiter.cleanup_old_entries, failedSt,
    AuthRateLimiter.mk.injEq, true_and]
  exact ⟨filter_update_pointwise c l _, trivial⟩

/-- `check_rate_limit` on a one-client unblocked state whose failures
all sit inside the window: no pruning happens and the verdict compares
the count with the cap. -/
lemma check_rl_failedSt (M W B : Nat) (c : String) (l : List Nat) (now : Nat)
    (hl : ∀ x ∈ l, now - x < W) :
    AuthRateLimiter.check_rate_limit c now (failedSt M W B c l) =
      (decide (l.length < M), failedSt M W B c l) := by
  have hfl : l.filter (fun t => decide (now - t < W)) = l :=
    List.filter_eq_self.mpr fun a ha => by simpa using hl a ha
  simp only [AuthRateLimiter.check_rate_limit]
  have hb : (failedSt M W B c l).blocked_clients c = none := rfl
  rw [hb, cleanup_failedSt]
  simp [failedSt, hfl]

/-- `record_failure` below the threshold only appends the timestamp. -/
lemma record_failure_small (M W B : Nat) (c : String) (l : List Nat) (t : Nat)
    (h : l.length + 1 < M) :
    AuthRateLimiter.record_failure c t (failedSt M W B c l) =
      failedSt M W B c (l ++ [t]) := by
  simp only [AuthRateLimiter.record_failure, failedSt, Function.update_same]
  rw [if_neg (by simp; omega)]
  simp [AuthRateLimiter.mk.injEq, Function.update_idem]

/-- `record_failure` reaching the threshold appends the timestamp and
blocks the client until `t + block_duration`. -/
lemma record_failure_block (M W B : Nat) (c : String) (l : List Nat) (t : Nat)
    (h : M ≤ l.length + 1) :
    AuthRateLimiter.record_failure c t (failedSt M W B c l) =
      blockedSt M W B c (l ++ [t]) (t + B) := by
  simp only [AuthRateLimiter.record_failure, failedSt, Function.update_same]
  rw [if_pos (by simp; omega)]
  simp [blockedSt, AuthRateLimiter.mk.injEq, Function.update_idem]

/-- `check_rate_limit` during an active block: deny, touch nothing. -/
lemma check_rl_blocked_active (M W B : Nat) (c : String) (l : List Nat)
    (u now : Nat) (h : now < u) :
    AuthRateLimiter.check_rate_limit c now (blockedSt M W B c l u) =
      (false, blockedSt M W B c l u) := by
  simp only [AuthRateLimiter.check_rate_limit]
  have hb : (blockedSt M W B c l u).blocked_clients c = some u := by
    simp [blockedSt]
  rw [hb]
  simp [h]

/-- `check_rate_limit` on an expired block: the block and the failure
list are removed, and (the cap being positive) the client is allowed. -/
lemma check_rl_blocked_expired (M W B : Nat) (c : String) (l : List Nat)
    (u now : Nat) (hu : u ≤ now) (hM : 0 < M) :
    AuthRateLimiter.check_rate_limit c now (blockedSt M W B c l u) =
      (true, failedSt M W B c []) := by
  have hb : (blockedSt M W B c l u).blocked_clients c = some u := by
    simp [blockedSt]
  have hnot : ¬ now < u := by omega
  have hrw : ({ blockedSt M W B c l u with
      blocked_clients :=
        Function.update (blockedSt M W B c l u).blocked_clients c none,
      failed_attempts :=
        Function.update (blockedSt M W B c l u).failed_attempts c [] } :
        AuthRateLimiter) = failedSt M W B c [] := by
    simp only [blockedSt, failedSt, AuthRateLimiter.mk.injEq, true_and,
      Function.update_idem]
    exact Function.update_eq_self c (fun _ => none)
  simp only [AuthRateLimiter.check_rate_limit, hb]
  rw [if_neg hnot, hrw, cleanup_failedSt]
  simp [failedSt, hM]

/-- `record_success` on a one-client state clears its failure list. -/
lemma record_success_failedSt (M W B : Nat) (c : String) (l : List Nat) :
    AuthRateLimiter.record_success c (failedSt M W B c l) =
      failedSt M W B c [] := by
  simp [AuthRateLimiter.record_success, failedSt, AuthRateLimiter.mk.injEq,
    Function.update_idem]

/-- `validate_auth` on a currently blocked client: `rate_limited`, the
whole limiter state untouched, whatever the request carried. -/
lemma validate_auth_blocked (cfg : AuthConfig) (req : Request) (c : String)
    (now : Nat) (s : AuthRateLimiter) (u : Nat)
    (hen : cfg.auth_enabled = true)
    (hb : s.blocked_clients c = some u) (hnow : now < u) :
    Server.validate_auth cfg req c now s = ((false, "rate_limited"), s) := by
  simp [Server.validate_auth, AuthRateLimiter.check_rate_limit, hen, hb, hnow]

/-- One failing attempt (no token) strictly below the threshold:
`auth_failed`, the timestamp appended, no block. -/
lemma validate_auth_fail_step (cfg : AuthConfig) (c : String) (M W B : Nat)
    (l : List Nat) (t : Nat)
    (hen : cfg.auth_enabled = true) (hW : 0 < W)
    (hl : ∀ x ∈ l, t - x < W) (hcount : l.length + 1 < M) :
    Server.validate_auth cfg noTok c t (failedSt M W B c l) =
      ((false, "auth_failed"), failedSt M W B c (l ++ [t])) := by
  have h1 := check_rl_failedSt M W B c l t hl
  have hlt : l.length < M := by omega
  have h2 := record_failure_small M W B c l t hcount
  have hl' : ∀ x ∈ l ++ [t], t - x < W := by
    intro x hx
    rcases List.mem_append.mp hx with h | h
    · exact hl x h
    · simp only [List.mem_singleton] at h
      omega
  have h3 := check_rl_failedSt M W B c (l ++ [t]) t hl'
  have hlen : (l ++ [t]).length = l.length + 1 := by simp
  simp [Server.validate_auth, hen, h1, h2, h3, hlt, hlen, hcount, noTok, pyTruthy]

/-- The failing attempt that reaches the threshold: the client is
blocked until `t + B` and the verdict is `rate_limited`. -/
lemma validate_auth_block_step (cfg : AuthConfig) (c : String) (M W B : Nat)
    (l : List Nat) (t : Nat)
    (hen : cfg.auth_enabled = true) (hB : 0 < B)
    (hl : ∀ x ∈ l, t - x < W) (hcount : l.length + 1 = M) :
    Server.validate_auth cfg noTok c t (failedSt M W B c l) =
      ((false, "rate_limited"), blockedSt M W B c (l ++ [t]) (t + B)) := by
  have h1 := check_rl_failedSt M W B c l t hl
  have hlt : l.length < M := by omega
  have h2 := record_failure_block M W B c l t (by omega)
  have h3 := check_rl_blocked_active M W B c (l ++ [t]) (t + B) t (by omega)
  simp [Server.validate_auth, hen, h1, h2, h3, hlt, noTok, pyTruthy]

/-- A request with the correct token hash once the block has expired:
authentication succeeds and the failure list is cleared. -/
lemma validate_auth_unblock (c : String) (M W B : Nat) (l : List Nat)
    (u : Nat) (H : String) (now : Nat)
    (hu : u ≤ now) (hM : 0 < M) (hH : H ≠ "") :
    Server.validate_auth ⟨true, some H⟩ (tokReq H) c now (blockedSt M W B c l u) =
      ((true, ""), failedSt M W B c []) := by
  have h1 := check_rl_blocked_expired M W B c l u now hu hM
  have h2 := check_rl_failedSt M W B c [] now (by intro x hx; simp at hx)
  have h3 := record_success_failedSt M W B c []
  have hT : pyTruthy (.jStr H) = true := by
    simp [pyTruthy, hH]
  have hE : pyEq (.jStr H) (.jStr H) = true := by
    simp [pyEq]
  simp [Server.validate_auth, tokReq, h1, h2, h3, hT, hE, hM]

/-- Consecutive failing attempts that stay below the threshold, at
timestamps pairwise inside the window, accumulate exactly in the
client's failure list and never block. -/
lemma run_failures_below (cfg : AuthConfig) (c : String) (M W B : Nat)
    (hen : cfg.auth_enabled = true) (hW : 0 < W) :
    ∀ (ts acc : List Nat),
      (acc ++ ts).Pairwise (fun a b => b - a < W) →
      acc.length + ts.length < M →
      run_failures cfg c (failedSt M W B c acc) ts =
        failedSt M W B c (acc ++ ts) := by
  intro ts
  induction ts with
  | nil => intro acc _ _; simp [run_failures]
  | cons t ts ih =>
    intro acc hp hlen
    have hacc : ∀ x ∈ acc, t - x < W := fun x hx =>
      (List.pairwise_append.mp hp).2.2 x hx t (List.mem_cons_self t ts)
    have hcount : acc.length + 1 < M := by
      simp only [List.length_cons] at hlen; omega
    have hstep := validate_auth_fail_step cfg c M W B acc t hen hW hacc hcount
    have hp' : ((acc ++ [t]) ++ ts).Pairwise (fun a b => b - a < W) := by
      rw [List.append_assoc, List.singleton_append]; exact hp
    have hlen' : (acc ++ [t]).length + ts.length < M := by
      simp only [List.length_append, List.length_singleton]
      simp only [List.length_cons] at hlen; omega
    have hrec := ih (acc ++ [t]) hp' hlen'
    rw [run_failures, hstep]
    simp only [hrec, List.append_assoc, List.singleton_append]

/-! ### C1: the lockout cycle -/

/-- C1: for any lockout configuration `{max_attempts: M, window: W,
block: B}` (window and block positive) with auth enabled: starting from
a fresh limiter, after `M - 1` consecutive failures inside the window,
the M-th consecutive failure blocks the client until `tM + B`; every
request during the block window — including one carrying the correct
token hash — fails with the `rate_limited` reason and leaves the state
untouched; and once `B` seconds have elapsed since blocking, a request
with the correct token hash succeeds. -/
theorem c1_auth_lockout_cycle (M W B : Nat) (c H : String)
    (ts : List Nat) (tM : Nat)
    (hW : 0 < W) (hB : 0 < B) (hH : H ≠ "")
    (hlen : ts.length + 1 = M)
    (hp : (ts ++ [tM]).Pairwise (fun a b => b - a < W)) :
    (Server.validate_auth ⟨true, some H⟩ noTok c tM
        (run_failures ⟨true, some H⟩ c ⟨M, W, B, fun _ => [], fun _ => none⟩ ts) =
      ((false, "rate_limited"), blockedSt M W B c (ts ++ [tM]) (tM + B))) ∧
    (blockedSt M W B c (ts ++ [tM]) (tM + B)).blocked_clients c = some (tM + B) ∧
    (∀ t, t < tM + B →
      Server.validate_auth ⟨true, some H⟩ (tokReq H) c t
          (blockedSt M W B c (ts ++ [tM]) (tM + B)) =
        ((false, "rate_limited"), blockedSt M W B c (ts ++ [tM]) (tM + B))) ∧
    (∀ t, tM + B ≤ t →
      Server.validate_auth ⟨true, some H⟩ (tokReq H) c t
          (blockedSt M W B c (ts ++ [tM]) (tM + B)) =
        ((true, ""), failedSt M W B c [])) := by
  have hfresh : (⟨M, W, B, fun _ => [], fun _ => none⟩ : AuthRateLimiter) =
      failedSt M W B c [] := by
    simp only [failedSt, AuthRateLimiter.mk.injEq, true_and]
    exact ⟨(update_const_nil c).symm, trivial⟩
  have hpts : ts.Pairwise (fun a b => b - a < W) :=
    (List.pairwise_append.mp hp).1
  have hptsApp : (([] : List Nat) ++ ts).Pairwise (fun a b => b - a < W) := by
    simpa using hpts
  have hrun : run_failures ⟨true, some H⟩ c
      (⟨M, W, B, fun _ => [], fun _ => none⟩ : AuthRateLimiter) ts =
      failedSt M W B c ts := by
    rw [hfresh]
    have := run_failures_below ⟨true, some H⟩ c M W B rfl hW ts [] hptsApp
      (by simp; omega)
    simpa using this
  have hwin : ∀ x ∈ ts, tM - x < W := fun x hx =>
    (List.pairwise_append.mp hp).2.2 x hx tM (List.mem_singleton_self tM)
  have hblockStep := validate_auth_block_step ⟨true, some H⟩ c M W B ts tM
    rfl hB hwin hlen
  refine ⟨by rw [hrun]; exact hblockStep, by simp [blockedSt], ?_, ?_⟩
  · intro t ht
    exact validate_auth_blocked ⟨true, some H⟩ (tokReq H) c t
      (blockedSt M W B c (ts ++ [tM]) (tM + B)) (tM + B) rfl
      (by simp [blockedSt]) ht
  · intro t ht
    exact validate_auth_unblock c M W B (ts ++ [tM]) (tM + B) H t ht
      (by omega) hH

/-- C1 witness: `{max_attempts: 2, window: 1, block: 1}`, two failures
at time 0, a blocked correct-token request still at time 0, an accepted
one at time 1. -/
theorem c1_witness :
    0 < 1 ∧ ("h" : String) ≠ "" ∧ ([0] : List Nat).length + 1 = 2 ∧
    (([0] ++ [0] : List Nat)).Pairwise (fun a b => b - a < 1) ∧
    ((Server.validate_auth ⟨true, some "h"⟩ noTok "c" 0
        (run_failures ⟨true, some "h"⟩ "c"
          ⟨2, 1, 1, fun _ => [], fun _ => none⟩ [0]) =
      ((false, "rate_limited"), blockedSt 2 1 1 "c" ([0] ++ [0]) (0 + 1))) ∧
    (blockedSt 2 1 1 "c" ([0] ++ [0]) (0 + 1)).blocked_clients "c" =
      some (0 + 1) ∧
    (∀ t, t < 0 + 1 →
      Server.validate_auth ⟨true, some "h"⟩ (tokReq "h") "c" t
          (blockedSt 2 1 1 "c" ([0] ++ [0]) (0 + 1)) =
        ((false, "rate_limited"), blockedSt 2 1 1 "c" ([0] ++ [0]) (0 + 1))) ∧
    (∀ t, 0 + 1 ≤ t →
      Server.validate_auth ⟨true, some "h"⟩ (tokReq "h") "c" t
          (blockedSt 2 1 1 "c" ([0] ++ [0]) (0 + 1)) =
        ((true, ""), failedSt 2 1 1 "c" []))) :=
  ⟨by decide, by decide, by decide, by decide,
    c1_auth_lockout_cycle 2 1 1 "c" "h" [0] 0 (by decide) (by decide)
      (by decide) (by decide) (by decide)⟩

/-! ### C7: blocked path consumes no attempt -/

/-- C7: with auth enabled, a request from a currently blocked client
fails with the `rate_limited` reason and the limiter state — in
particular the client's failed-attempt list — is not modified: no
attempt is consumed on the blocked path. -/
theorem c7_blocked_no_attempt_consumed (cfg : AuthConfig) (req : Request)
    (c : String) (now : Nat) (s : AuthRateLimiter) (u : Nat)
    (hen : cfg.auth_enabled = true)
    (hb : s.blocked_clients c = some u) (hnow : now < u) :
    (Server.validate_auth cfg req c now s).1 = (false, "rate_limited") ∧
    (Server.validate_auth cfg req c now s).2.failed_attempts =
      s.failed_attempts ∧
    (Server.validate_auth cfg req c now s).2 = s := by
  have h := validate_auth_blocked cfg req c now s u hen hb hnow
  exact ⟨by rw [h], by rw [h], by rw [h]⟩

/-- C7 witness: a client blocked until 10, probed at 3 with a correct
token hash. -/
theorem c7_witness :
    (⟨true, some "h"⟩ : AuthConfig).auth_enabled = true ∧
    (⟨5, 60, 60, fun _ => [], fun _ => some 10⟩ :
      AuthRateLimiter).blocked_clients "c" = some 10 ∧ 3 < 10 ∧
    ((Server.validate_auth ⟨true, some "h"⟩ (tokReq "h") "c" 3
        ⟨5, 60, 60, fun _ => [], fun _ => some 10⟩).1 =
          (false, "rate_limited") ∧
      (Server.validate_auth ⟨true, some "h"⟩ (tokReq "h") "c" 3
        ⟨5, 60, 60, fun _ => [], fun _ => some 10⟩).2.failed_attempts =
          (⟨5, 60, 60, fun _ => [], fun _ => some 10⟩ :
            AuthRateLimiter).failed_attempts ∧
      (Server.validate_auth ⟨true, some "h"⟩ (tokReq "h") "c" 3
        ⟨5, 60, 60, fun _ => [], fun _ => some 10⟩).2 =
          ⟨5, 60, 60, fun _ => [], fun _ => some 10⟩) :=
  ⟨rfl, rfl, by decide,
    c7_blocked_no_attempt_consumed ⟨true, some "h"⟩ (tokReq "h") "c" 3
      ⟨5, 60, 60, fun _ => [], fun _ => some 10⟩ 10 rfl rfl (by decide)⟩
